import Mathlib

/-!
Shallow embedding of the repository connectivity verification and
trust-negotiation engine of `reviewboard/webapi/resources/repository.py`
(class RepositoryResource), together with the `create`, `update` and
`delete` handlers that invoke it.

Modelling conventions:
- A call to the backend probe `scmtool_class.check_repository(...)` either
  returns normally or raises one of a closed set of exceptions; one probe
  call is modelled as a `ProbeResult`.
- `_check_repository` runs a `while 1:` loop, each iteration performing one
  probe.  The environment of a whole call is a finite list of `Round`s: the
  i-th round supplies the i-th probe's result together with the behaviour
  of the trust-store mutation the loop would attempt in that iteration
  (success, possibly returning certificate metadata, or an IOError).
  `check_repository_loop` consumes rounds one per iteration and returns
  `none` when the environment is exhausted while the loop is still running:
  `none` for every environment length means the call does not terminate.
- Trust Store mutations (`SSHClient.replace_host_key`, `SSHClient.add_host_key`,
  `scmtool_class.accept_certificate`) are external collaborators; the model
  records each attempted mutation in a `TrustCall` trace, so "the Trust
  Store is unchanged" is expressed as an empty trace.
- Raw SSH key material is abstract; `RawKey.get_base64` is its serialized
  form, as produced by paramiko's `PKey.get_base64()`.
- Python dictionaries with string keys/values are association lists
  (`RBDict`); `dict.update` is `dictUpdate`.
- The unhandled `except Exception: raise` arm is the `CheckOutcome.raised`
  result: the failure escapes `_check_repository` instead of being turned
  into an error tuple.
-/

namespace ReviewBoard

/-- Association-list model of a Python `dict` with string keys and values. -/
abbrev RBDict := List (String × String)

/-- Model of `d.update(e)`: every key of `e` is bound to its value in `e`;
keys of `d` absent from `e` keep their values. -/
def dictUpdate (d e : RBDict) : RBDict :=
  d.filter (fun p => (e.lookup p.1).isNone) ++ e

/-- Raw public-key material carried by the SSH exceptions; `get_base64` is
its serialized form (paramiko `PKey.get_base64()`). -/
structure RawKey where
  get_base64 : String
deriving DecidableEq, Repr

/-- The certificate object carried by `UnverifiedCertificateError`. -/
structure Certificate where
  failures : List String
  fingerprint : String
  hostname : String
  issuer : String
  valid_from : String
  valid_until : String
deriving DecidableEq, Repr

/-- The closed set of failures a probe call can raise, mirroring the
`except` arms of `_check_repository` in source order.  `otherError` is the
final `except Exception` arm: any failure type not recognized above. -/
inductive ProbeError
  | repositoryNotFoundError
  | badHostKeyError (hostname : String) (raw_expected_key : RawKey) (raw_key : RawKey)
  | unknownHostKeyError (hostname : String) (raw_key : RawKey)
  | unverifiedCertificateError (certificate : Certificate)
  | authenticationError (allowed_types : List String) (user_key : Option RawKey) (msg : String)
  | sshError (msg : String)
  | scmError (msg : String)
  | otherError (msg : String)
deriving DecidableEq, Repr

/-- Outcome of one call to `scmtool_class.check_repository`. -/
inductive ProbeResult
  | ok
  | err (e : ProbeError)
deriving DecidableEq, Repr

/-- Behaviour of the trust-store mutation attempted in an iteration, if one
is attempted: success (with the dictionary returned by
`accept_certificate`, empty for the host-key mutations and for a `None`
return) or an `IOError` with the given message. -/
inductive TrustActionResult
  | ok (cert : RBDict)
  | ioError (msg : String)
deriving DecidableEq, Repr

/-- One iteration's environment: the probe's result and the behaviour of
the trust mutation, should the loop attempt one in this iteration. -/
structure Round where
  probe : ProbeResult
  trust : TrustActionResult
deriving DecidableEq, Repr

/-- An attempted Trust Store mutation, with its actual arguments
(`nspace` is the SSHClient/accept_certificate namespace argument, i.e. the
local site name). -/
inductive TrustCall
  | replace_host_key (nspace : Option String) (hostname : String)
      (expected : RawKey) (observed : RawKey)
  | add_host_key (nspace : Option String) (hostname : String) (key : RawKey)
  | accept_certificate (path : String) (nspace : Option String)
deriving DecidableEq, Repr

/-- The error tuples `_check_repository` can return (webapi error code plus
payload fields, as built at each `return` site). -/
inductive ErrorResult
  | missingRepository
  | serverConfigError (reason : String)
  | badHostKey (hostname : String) (expected_key : String) (key : String)
  | unverifiedHostKey (hostname : String) (key : String)
  | unverifiedHostCert (certificate : Certificate)
  | missingUserKey
  | repoAuthenticationError (reason : String)
  | repoInfoError (error : String)
deriving DecidableEq, Repr

/-- How a `_check_repository` call ends: `ok` models `return None`
(success), `error` models returning an error tuple, `raised` models the
`except Exception: raise` arm re-raising the unrecognized failure. -/
inductive CheckOutcome
  | ok
  | error (e : ErrorResult)
  | raised (msg : String)
deriving DecidableEq, Repr

/-- Result of a terminating `_check_repository` call: its outcome, the
final contents of the caller-supplied `ret_cert` dictionary, the trace of
attempted Trust Store mutations, and the number of probe calls made. -/
structure CheckResult where
  outcome : CheckOutcome
  ret_cert : RBDict
  calls : List TrustCall
  probes : Nat
deriving DecidableEq, Repr

/-- The `while 1:` loop of `_check_repository`, one `Round` consumed per
iteration.  Returns `none` when the environment is exhausted while the
loop would keep going (the call has not terminated within that many
probes). -/
def check_repository_loop (trust_host : Bool) (local_site_name : Option String)
    (path : String) : List Round → RBDict → Option CheckResult
  | [], _ => none
  | r :: rest, ret_cert =>
    match r.probe with
    | .ok =>
      some ⟨.ok, ret_cert, [], 1⟩
    | .err .repositoryNotFoundError =>
      some ⟨.error .missingRepository, ret_cert, [], 1⟩
    | .err (.badHostKeyError hostname raw_expected_key raw_key) =>
      if trust_host then
        match r.trust with
        | .ok _ =>
          (check_repository_loop trust_host local_site_name path rest ret_cert).map
            (fun res =>
              { res with
                calls := .replace_host_key local_site_name hostname
                    raw_expected_key raw_key :: res.calls,
                probes := res.probes + 1 })
        | .ioError msg =>
          some ⟨.error (.serverConfigError msg), ret_cert,
            [.replace_host_key local_site_name hostname raw_expected_key raw_key], 1⟩
      else
        some ⟨.error (.badHostKey hostname raw_expected_key.get_base64
          raw_key.get_base64), ret_cert, [], 1⟩
    | .err (.unknownHostKeyError hostname raw_key) =>
      if trust_host then
        match r.trust with
        | .ok _ =>
          (check_repository_loop trust_host local_site_name path rest ret_cert).map
            (fun res =>
              { res with
                calls := .add_host_key local_site_name hostname raw_key :: res.calls,
                probes := res.probes + 1 })
        | .ioError msg =>
          some ⟨.error (.serverConfigError msg), ret_cert,
            [.add_host_key local_site_name hostname raw_key], 1⟩
      else
        some ⟨.error (.unverifiedHostKey hostname raw_key.get_base64), ret_cert, [], 1⟩
    | .err (.unverifiedCertificateError certificate) =>
      if trust_host then
        match r.trust with
        | .ok cert =>
          (check_repository_loop trust_host local_site_name path rest
              (if cert.isEmpty then ret_cert else dictUpdate ret_cert cert)).map
            (fun res =>
              { res with
                calls := .accept_certificate path local_site_name :: res.calls,
                probes := res.probes + 1 })
        | .ioError msg =>
          some ⟨.error (.serverConfigError msg), ret_cert,
            [.accept_certificate path local_site_name], 1⟩
      else
        some ⟨.error (.unverifiedHostCert certificate), ret_cert, [], 1⟩
    | .err (.authenticationError allowed_types user_key msg) =>
      if allowed_types.contains "publickey" && user_key.isNone then
        some ⟨.error .missingUserKey, ret_cert, [], 1⟩
      else
        some ⟨.error (.repoAuthenticationError msg), ret_cert, [], 1⟩
    | .err (.sshError msg) =>
      some ⟨.error (.repoInfoError msg), ret_cert, [], 1⟩
    | .err (.scmError msg) =>
      some ⟨.error (.repoInfoError msg), ret_cert, [], 1⟩
    | .err (.otherError msg) =>
      some ⟨.raised msg, ret_cert, [], 1⟩

/-- `_check_repository(scmtool_class, path, username, password, local_site,
trust_host, ret_cert, request)`: `local_site` is its name (the method only
reads `local_site.name`), `ret_cert` starts as the caller's dictionary,
and the probe/trust environment supplies each iteration's behaviour. -/
def _check_repository (trust_host : Bool) (local_site : Option String)
    (path : String) (rounds : List Round) : Option CheckResult :=
  check_repository_loop trust_host local_site path rounds []

/-- The fields of a `Repository` record that the handlers read or write
(`tool` is the SCMTool id, `local_site` its name, `extra_data_cert` the
`extra_data['cert']` entry when set). -/
structure Repo where
  name : String
  path : String
  mirror_path : String
  raw_file_url : String
  username : String
  password : String
  tool : String
  bug_tracker : String
  encoding : String
  public : Bool
  visible : Bool
  local_site : Option String
  extra_data_cert : Option RBDict
deriving DecidableEq, Repr

/-- Result of the `create` handler, past permission and tool validation:
`created` is the 201 response with the saved repository, `error` an error
tuple from `_check_repository`, `raised` an escaping unrecognized failure,
`pending` the probe environment running out while the check loop is still
going. -/
inductive CreateResult
  | created (repository : Repo)
  | error (e : ErrorResult)
  | raised (msg : String)
  | pending
deriving DecidableEq, Repr

/-- A `create` call's result together with the attempted Trust Store trace
and the number of probe calls made. -/
structure CreateOutcome where
  result : CreateResult
  calls : List TrustCall
  probes : Nat
deriving DecidableEq, Repr

/-- The `create` handler after permission and SCMTool validation: checks
the repository with a fresh `cert` dictionary, returns the error on
failure, otherwise builds the record (`public` defaulting to true,
falsy optional strings becoming empty), stores `cert` in
`extra_data['cert']` when non-empty, saves, and returns 201. -/
def create (name path tool : String) (trust_host : Bool)
    (bug_tracker encoding mirror_path password : Option String)
    (public : Option Bool) (raw_file_url username : Option String)
    (visible : Bool) (local_site : Option String)
    (rounds : List Round) : CreateOutcome :=
  match _check_repository trust_host local_site path rounds with
  | none => ⟨.pending, [], rounds.length⟩
  | some res =>
    match res.outcome with
    | .error e => ⟨.error e, res.calls, res.probes⟩
    | .raised m => ⟨.raised m, res.calls, res.probes⟩
    | .ok =>
      let repository : Repo :=
        { name := name
          path := path
          mirror_path := mirror_path.getD ""
          raw_file_url := raw_file_url.getD ""
          username := username.getD ""
          password := password.getD ""
          tool := tool
          bug_tracker := bug_tracker.getD ""
          encoding := encoding.getD ""
          public := public.getD true
          visible := visible
          local_site := local_site
          extra_data_cert := none }
      let repository :=
        if res.ret_cert.isEmpty then repository
        else { repository with extra_data_cert := some res.ret_cert }
      ⟨.created repository, res.calls, res.probes⟩

/-- The optional request fields the `update` handler reads (absent field =
`none`); `archive_name` is read with `kwargs.get('archive_name', False)`. -/
structure UpdateKwargs where
  bug_tracker : Option String
  encoding : Option String
  mirror_path : Option String
  name : Option String
  password : Option String
  path : Option String
  public : Option Bool
  raw_file_url : Option String
  username : Option String
  visible : Option Bool
  archive_name : Bool
deriving DecidableEq, Repr

/-- The `for field in (...)` loop of `update`: each supplied field is
written onto the record, absent ones left alone. -/
def setFields (repository : Repo) (kw : UpdateKwargs) : Repo :=
  { repository with
    bug_tracker := kw.bug_tracker.getD repository.bug_tracker
    encoding := kw.encoding.getD repository.encoding
    mirror_path := kw.mirror_path.getD repository.mirror_path
    name := kw.name.getD repository.name
    password := kw.password.getD repository.password
    path := kw.path.getD repository.path
    public := kw.public.getD repository.public
    raw_file_url := kw.raw_file_url.getD repository.raw_file_url
    username := kw.username.getD repository.username
    visible := kw.visible.getD repository.visible }

/-- The archive renaming in `update`:
`'ar:%s:%x' % (repository.name[:50], int(time()))`. -/
def archiveName (name : String) (now : Nat) : String :=
  "ar:" ++ name.take 50 ++ ":" ++ String.mk (Nat.toDigits 16 now)

/-- The `archive_name` block of `update`: rename when requested. -/
def maybeArchive (repository : Repo) (archive : Bool) (now : Nat) : Repo :=
  if archive then { repository with name := archiveName repository.name now }
  else repository

/-- Result of the `update` handler past object lookup and permission
check: `saved` is the 200 response with the saved record. -/
inductive UpdateResult
  | saved (status : Nat) (repository : Repo)
  | error (e : ErrorResult)
  | raised (msg : String)
  | pending
deriving DecidableEq, Repr

/-- An `update` call's result together with the attempted Trust Store
trace and the number of probe calls made. -/
structure UpdateOutcome where
  result : UpdateResult
  calls : List TrustCall
  probes : Nat
deriving DecidableEq, Repr

/-- The `update` handler past object lookup and permission check: writes
the supplied fields, re-checks the repository only when `path`, `username`
or `password` was supplied (with a fresh `cert` dictionary, stored into
`extra_data['cert']` when non-empty), applies the archive renaming, saves,
and returns 200. -/
def update (repository : Repo) (trust_host : Bool) (kw : UpdateKwargs)
    (rounds : List Round) (now : Nat) : UpdateOutcome :=
  let repository := setFields repository kw
  if kw.path.isSome || kw.username.isSome || kw.password.isSome then
    match _check_repository trust_host repository.local_site repository.path rounds with
    | none => ⟨.pending, [], rounds.length⟩
    | some res =>
      match res.outcome with
      | .error e => ⟨.error e, res.calls, res.probes⟩
      | .raised m => ⟨.raised m, res.calls, res.probes⟩
      | .ok =>
        let repository :=
          if res.ret_cert.isEmpty then repository
          else { repository with extra_data_cert := some res.ret_cert }
        ⟨.saved 200 (maybeArchive repository kw.archive_name now), res.calls, res.probes⟩
  else
    ⟨.saved 200 (maybeArchive repository kw.archive_name now), [], 0⟩

/-- Database effect of the `delete` handler: record removed, or record
kept with `visible = False` and saved. -/
inductive DeleteEffect
  | deleted
  | hidden (saved : Repo)
deriving DecidableEq, Repr

/-- The `delete` handler past object lookup and permission check: deletes
the record when it has no review requests, otherwise hides it; either way
responds 204 with an empty payload. -/
def delete (repository : Repo) (review_requests_exist : Bool) :
    DeleteEffect × Nat × RBDict :=
  if !review_requests_exist then
    (.deleted, 204, [])
  else
    (.hidden { repository with visible := false }, 204, [])

/-- The probe failure kinds that are not trust-negotiable and not the
unrecognized (re-raised) case: their `except` arms return immediately
without consulting `trust_host` or the trust store.  The corresponding
error tuple is paired with each. -/
def classifyNonNegotiable : ProbeError → Option ErrorResult
  | .repositoryNotFoundError => some .missingRepository
  | .authenticationError allowed_types user_key msg =>
    some (if allowed_types.contains "publickey" && user_key.isNone then
        .missingUserKey
      else .repoAuthenticationError msg)
  | .sshError msg => some (.repoInfoError msg)
  | .scmError msg => some (.repoInfoError msg)
  | _ => none

/-- The trust-negotiable probe failure kinds: the ones whose `except` arms
attempt a Trust Store mutation when `trust_host` is set. -/
def trustNegotiable : ProbeError → Bool
  | .badHostKeyError _ _ _ => true
  | .unknownHostKeyError _ _ => true
  | .unverifiedCertificateError _ => true
  | _ => false

/-- A concrete repository record, used to evaluate the handlers. -/
def sampleRepo : Repo :=
  { name := "Main Repo"
    path := "https://svn.example.com/repo"
    mirror_path := ""
    raw_file_url := ""
    username := "bot"
    password := "hunter2"
    tool := "Subversion"
    bug_tracker := ""
    encoding := ""
    public := true
    visible := true
    local_site := none
    extra_data_cert := none }

/-- An update request supplying only `path`, with the same value already
stored in `sampleRepo`. -/
def kwPathOnly : UpdateKwargs :=
  { bug_tracker := none, encoding := none, mirror_path := none, name := none
    password := none, path := some "https://svn.example.com/repo"
    public := none, raw_file_url := none, username := none, visible := none
    archive_name := false }

/-- An update request supplying only `name` and `visible`: none of the
access fields `path`, `username`, `password`. -/
def kwNoAccess : UpdateKwargs :=
  { bug_tracker := none, encoding := none, mirror_path := none
    name := some "Renamed", password := none, path := none
    public := none, raw_file_url := none, username := none
    visible := some false, archive_name := false }

/-- If a terminating `_check_repository` run ends with a re-raised failure
(`raised m`), some round of its environment supplied the unrecognized
failure `otherError m`: every recognized failure kind is returned as a
structured result, never re-raised. -/
theorem loop_raised_has_unknown (trust_host : Bool) (ns : Option String)
    (p : String) (rounds : List Round) :
    ∀ (rc : RBDict) (res : CheckResult) (m : String),
      check_repository_loop trust_host ns p rounds rc = some res →
      res.outcome = .raised m →
      ∃ r ∈ rounds, r.probe = .err (.otherError m) := by
  induction rounds with
  | nil =>
    intro rc res m h _
    exact absurd h (by simp [check_repository_loop])
  | cons r rest ih =>
    intro rc res m h hout
    obtain ⟨probe, trust⟩ := r
    cases probe with
    | ok =>
      simp only [check_repository_loop, Option.some.injEq] at h
      subst h
      simp at hout
    | err pe =>
      cases pe with
      | repositoryNotFoundError =>
        simp only [check_repository_loop, Option.some.injEq] at h
        subst h
        simp at hout
      | badHostKeyError hostname raw_expected_key raw_key =>
        simp only [check_repository_loop] at h
        split at h
        · cases trust with
          | ok c =>
            rw [Option.map_eq_some'] at h
            obtain ⟨a, ha, rfl⟩ := h
            obtain ⟨r', hr', hpr⟩ := ih rc a m ha hout
            exact ⟨r', List.mem_cons_of_mem _ hr', hpr⟩
          | ioError msg =>
            simp only [Option.some.injEq] at h
            subst h
            simp at hout
        · simp only [Option.some.injEq] at h
          subst h
          simp at hout
      | unknownHostKeyError hostname raw_key =>
        simp only [check_repository_loop] at h
        split at h
        · cases trust with
          | ok c =>
            rw [Option.map_eq_some'] at h
            obtain ⟨a, ha, rfl⟩ := h
            obtain ⟨r', hr', hpr⟩ := ih rc a m ha hout
            exact ⟨r', List.mem_cons_of_mem _ hr', hpr⟩
          | ioError msg =>
            simp only [Option.some.injEq] at h
            subst h
            simp at hout
        · simp only [Option.some.injEq] at h
          subst h
          simp at hout
      | unverifiedCertificateError certificate =>
        simp only [check_repository_loop] at h
        split at h
        · cases trust with
          | ok c =>
            rw [Option.map_eq_some'] at h
            obtain ⟨a, ha, rfl⟩ := h
            obtain ⟨r', hr', hpr⟩ :=
              ih (if c.isEmpty then rc else dictUpdate rc c) a m ha hout
            exact ⟨r', List.mem_cons_of_mem _ hr', hpr⟩
          | ioError msg =>
            simp only [Option.some.injEq] at h
            subst h
            simp at hout
        · simp only [Option.some.injEq] at h
          subst h
          simp at hout
      | authenticationError allowed_types user_key msg =>
        simp only [check_repository_loop] at h
        split at h <;>
          (simp only [Option.some.injEq] at h
           subst h
           simp at hout)
      | sshError msg =>
        simp only [check_repository_loop, Option.some.injEq] at h
        subst h
        simp at hout
      | scmError msg =>
        simp only [check_repository_loop, Option.some.injEq] at h
        subst h
        simp at hout
      | otherError msg =>
        simp only [check_repository_loop, Option.some.injEq] at h
        subst h
        injection hout with hm
        subst hm
        exact ⟨_, List.mem_cons_self _ _, rfl⟩

/-- C1, counterexample.  With `trust_host` set, a probe that fails twice
with the same `BadHostKeyError` and then succeeds makes the loop retry
twice for that single failure kind and return success after three probes —
so the loop does not retry at most once per distinct failure kind; and six
identical `BadHostKeyError` failures with succeeding mutations exhaust all
six probes without the call terminating at all, in particular without any
`SERVER_CONFIG_ERROR` (ConfigError) outcome. -/
theorem c1_counterexample :
    _check_repository true none "repo"
        [⟨.err (.badHostKeyError "host" ⟨"ek"⟩ ⟨"k1"⟩), .ok []⟩,
         ⟨.err (.badHostKeyError "host" ⟨"ek"⟩ ⟨"k1"⟩), .ok []⟩,
         ⟨.ok, .ok []⟩]
      = some ⟨.ok, [],
          [.replace_host_key none "host" ⟨"ek"⟩ ⟨"k1"⟩,
           .replace_host_key none "host" ⟨"ek"⟩ ⟨"k1"⟩], 3⟩
    ∧ _check_repository true none "repo"
        (List.replicate 6
          (⟨.err (.badHostKeyError "host" ⟨"ek"⟩ ⟨"k1"⟩), .ok []⟩ : Round))
      = none :=
  ⟨rfl, rfl⟩

/-- C1, amended.  The `while 1:` retry loop of `_check_repository` is
unbounded: with `trust_host` set, if every probe fails with the same
`BadHostKeyError` and every `replace_host_key` mutation succeeds, the call
does not terminate within any number `n` of probes, and in particular
never returns a `SERVER_CONFIG_ERROR` (ConfigError) outcome.  The call
terminates only when a probe succeeds, a non-negotiable failure occurs, a
trust-negotiable failure occurs with `trust_host` unset, or a trust
mutation fails. -/
theorem c1_unbounded_retry (n : Nat) (hostname : String)
    (raw_expected_key raw_key : RawKey) (ns : Option String) (p : String)
    (rc : RBDict) :
    check_repository_loop true ns p
      (List.replicate n
        (⟨.err (.badHostKeyError hostname raw_expected_key raw_key), .ok []⟩ : Round))
      rc = none := by
  induction n with
  | zero => rfl
  | succ n ih => simp [List.replicate_succ, check_repository_loop, ih]

/-- C2, counterexample.  A probe rejected for authentication with
`allowed_types = ['publickey', 'password']` — public key is allowed but
not the sole allowed method — and no local user key still returns
`MISSING_USER_KEY`: the code tests `'publickey' in e.allowed_types`
(membership), not that public key is the only allowed method. -/
theorem c2_counterexample :
    _check_repository false none "repo"
        [⟨.err (.authenticationError ["publickey", "password"] none
          "Permission denied"), .ok []⟩]
      = some ⟨.error .missingUserKey, [], [], 1⟩ := by
  decide

/-- C2, amended.  An authentication-rejected probe returns
`MISSING_USER_KEY` exactly when `'publickey'` is among the backend's
allowed methods (not necessarily the sole one) and no local user key is
configured; every other authentication failure returns
`REPO_AUTHENTICATION_ERROR` carrying the backend's reason string
unmodified, in both cases after a single probe with no Trust Store
mutation and regardless of `trust_host`. -/
theorem c2_authentication_classification (trust_host : Bool)
    (ns : Option String) (p : String) (allowed_types : List String)
    (user_key : Option RawKey) (msg : String) (t : TrustActionResult)
    (rest : List Round) (rc : RBDict) :
    check_repository_loop trust_host ns p
        (⟨.err (.authenticationError allowed_types user_key msg), t⟩ :: rest) rc
      = some ⟨.error
          (if allowed_types.contains "publickey" && user_key.isNone then
            .missingUserKey
          else .repoAuthenticationError msg), rc, [], 1⟩ := by
  simp only [check_repository_loop]
  cases hc : allowed_types.contains "publickey" && user_key.isNone <;> rfl

/-- C4.  A probe failing with `UnknownHostKeyError` under
`trust_host=false` makes the call return `UNVERIFIED_HOST_KEY` carrying
the observed hostname and the observed key's serialized form, after one
probe, with the Trust Store untouched (empty mutation trace) and the
`cert` dictionary unchanged. -/
theorem c4_unknown_host_key_no_trust (ns : Option String) (p hostname : String)
    (raw_key : RawKey) (t : TrustActionResult) (rest : List Round)
    (rc : RBDict) :
    check_repository_loop false ns p
        (⟨.err (.unknownHostKeyError hostname raw_key), t⟩ :: rest) rc
      = some ⟨.error (.unverifiedHostKey hostname raw_key.get_base64),
          rc, [], 1⟩ :=
  rfl

/-- C5.  For the probe sequence [fail(UnknownHostKeyError), succeed] under
`trust_host=true`, the call performs exactly one Trust Store mutation —
`add_host_key` with the observed namespace, hostname and key — and returns
success after the second probe. -/
theorem c5_trust_on_first_use_add_host_key (ns : Option String)
    (p hostname : String) (raw_key : RawKey) (c : RBDict)
    (t : TrustActionResult) (rc : RBDict) :
    check_repository_loop true ns p
        [⟨.err (.unknownHostKeyError hostname raw_key), .ok c⟩, ⟨.ok, t⟩] rc
      = some ⟨.ok, rc, [.add_host_key ns hostname raw_key], 2⟩ :=
  rfl

/-- C10.  An authorized delete removes the repository record exactly when
it has no associated review requests; otherwise the record is kept with
its `visible` flag cleared and saved; in both cases the handler responds
204 with an empty payload. -/
theorem c10_delete_soft_or_hard (repository : Repo) :
    delete repository false = (.deleted, 204, [])
    ∧ delete repository true
      = (.hidden { repository with visible := false }, 204, []) :=
  ⟨rfl, rfl⟩

/-- C3.  A probe failing with any non-trust-negotiable recognized kind
(repository not found; authentication rejected, whether or not a user key
is missing; SSH transport error; generic backend SCM error) makes the call
return the matching terminal error tuple after the first probe, for either
value of `trust_host`, with no Trust Store mutation attempted and the
`cert` dictionary unchanged. -/
theorem c3_non_negotiable_first_probe (e : ProbeError) (r : ErrorResult)
    (h : classifyNonNegotiable e = some r) (trust_host : Bool)
    (ns : Option String) (p : String) (t : TrustActionResult)
    (rest : List Round) (rc : RBDict) :
    check_repository_loop trust_host ns p (⟨.err e, t⟩ :: rest) rc
      = some ⟨.error r, rc, [], 1⟩ := by
  cases e with
  | repositoryNotFoundError =>
    simp only [classifyNonNegotiable, Option.some.injEq] at h
    subst h
    rfl
  | badHostKeyError hostname raw_expected_key raw_key =>
    simp [classifyNonNegotiable] at h
  | unknownHostKeyError hostname raw_key =>
    simp [classifyNonNegotiable] at h
  | unverifiedCertificateError certificate =>
    simp [classifyNonNegotiable] at h
  | authenticationError allowed_types user_key msg =>
    simp only [classifyNonNegotiable, Option.some.injEq] at h
    subst h
    simp only [check_repository_loop]
    cases hc : allowed_types.contains "publickey" && user_key.isNone <;> rfl
  | sshError msg =>
    simp only [classifyNonNegotiable, Option.some.injEq] at h
    subst h
    rfl
  | scmError msg =>
    simp only [classifyNonNegotiable, Option.some.injEq] at h
    subst h
    rfl
  | otherError msg =>
    simp [classifyNonNegotiable] at h

/-- C3, witness: a repository-not-found probe under `trust_host=true`
terminates immediately with `MISSING_REPOSITORY` and an empty mutation
trace. -/
theorem c3_witness :
    check_repository_loop true none "https://svn.example.com/repo"
        [⟨.err .repositoryNotFoundError, .ok []⟩] []
      = some ⟨.error .missingRepository, [], [], 1⟩ :=
  c3_non_negotiable_first_probe .repositoryNotFoundError .missingRepository
    rfl true none "https://svn.example.com/repo" (.ok []) [] []

/-- C6.  When a trust-negotiable failure is handled with `trust_host=true`
and the attempted Trust Store mutation raises an `IOError`, the call
returns `SERVER_CONFIG_ERROR` carrying the mutation failure's message
after a single probe — the remaining environment is never consumed, so no
further probe attempt is made in that call. -/
theorem c6_mutation_failure_config_error (e : ProbeError)
    (h : trustNegotiable e = true) (msg : String) (ns : Option String)
    (p : String) (rest : List Round) (rc : RBDict) :
    ∃ c : TrustCall,
      check_repository_loop true ns p (⟨.err e, .ioError msg⟩ :: rest) rc
        = some ⟨.error (.serverConfigError msg), rc, [c], 1⟩ := by
  cases e with
  | badHostKeyError hostname raw_expected_key raw_key =>
    exact ⟨.replace_host_key ns hostname raw_expected_key raw_key, rfl⟩
  | unknownHostKeyError hostname raw_key =>
    exact ⟨.add_host_key ns hostname raw_key, rfl⟩
  | unverifiedCertificateError certificate =>
    exact ⟨.accept_certificate p ns, rfl⟩
  | repositoryNotFoundError => simp [trustNegotiable] at h
  | authenticationError a u m => simp [trustNegotiable] at h
  | sshError m => simp [trustNegotiable] at h
  | scmError m => simp [trustNegotiable] at h
  | otherError m => simp [trustNegotiable] at h

/-- C6, witness: an unknown-host-key failure whose `add_host_key` raises
IOError("disk full") yields `SERVER_CONFIG_ERROR` with that message after
one probe, even with more environment available. -/
theorem c6_witness :
    ∃ c : TrustCall,
      check_repository_loop true none "https://svn.example.com/repo"
          [⟨.err (.unknownHostKeyError "svn.example.com" ⟨"k1"⟩),
             .ioError "disk full"⟩,
           ⟨.ok, .ok []⟩] []
        = some ⟨.error (.serverConfigError "disk full"), [], [c], 1⟩ :=
  c6_mutation_failure_config_error
    (.unknownHostKeyError "svn.example.com" ⟨"k1"⟩) rfl "disk full" none
    "https://svn.example.com/repo" [⟨.ok, .ok []⟩] []

/-- C7.  First conjunct: a probe failure of unrecognized kind is re-raised
unmodified after one probe, with no Trust Store mutation, rather than
being turned into a structured error tuple.  Second conjunct: whenever a
terminating call ends re-raising a failure, that failure came from an
unrecognized-kind probe round — so a run whose probe failures are all of
recognized kinds always ends in a structured result, never a re-raise. -/
theorem c7_unknown_propagates :
    (∀ (trust_host : Bool) (ns : Option String) (p m : String)
        (t : TrustActionResult) (rest : List Round) (rc : RBDict),
      check_repository_loop trust_host ns p
          (⟨.err (.otherError m), t⟩ :: rest) rc
        = some ⟨.raised m, rc, [], 1⟩)
    ∧ (∀ (trust_host : Bool) (ns : Option String) (p : String)
        (rounds : List Round) (rc : RBDict) (res : CheckResult) (m : String),
      check_repository_loop trust_host ns p rounds rc = some res →
      res.outcome = .raised m →
      ∃ r ∈ rounds, r.probe = .err (.otherError m)) :=
  ⟨fun _ _ _ _ _ _ _ => rfl,
   fun trust_host ns p rounds rc res m h hout =>
     loop_raised_has_unknown trust_host ns p rounds rc res m h hout⟩

/-- C7, witness: an unrecognized failure "boom" is re-raised as-is after
one probe, and a run ending in re-raised "boom" indeed contains an
unrecognized-failure round. -/
theorem c7_witness :
    check_repository_loop true none "https://svn.example.com/repo"
        [⟨.err (.otherError "boom"), .ok []⟩] []
      = some ⟨.raised "boom", [], [], 1⟩
    ∧ ∃ r ∈ [(⟨.err (.otherError "boom"), .ok []⟩ : Round)],
        r.probe = .err (.otherError "boom") :=
  ⟨c7_unknown_propagates.1 true none "https://svn.example.com/repo" "boom"
      (.ok []) [] [],
   c7_unknown_propagates.2 true none "https://svn.example.com/repo"
      [⟨.err (.otherError "boom"), .ok []⟩] []
      ⟨.raised "boom", [], [], 1⟩ "boom" rfl rfl⟩

/-- C8.  For `trust_host=true`, a probe failing with an unverified
certificate whose `accept_certificate` succeeds returning non-empty
metadata `m`, followed by a successful probe: the check succeeds with the
caller-supplied `cert` dictionary updated to `m` and exactly the
`accept_certificate` mutation in the trace, and the `create` handler
persists `m` as the saved repository's `extra_data['cert']`. -/
theorem c8_certificate_metadata_persisted (certificate : Certificate)
    (m : RBDict) (hm : m ≠ []) (name path tool : String) (visible : Bool)
    (local_site : Option String) (t : TrustActionResult) :
    _check_repository true local_site path
        [⟨.err (.unverifiedCertificateError certificate), .ok m⟩, ⟨.ok, t⟩]
      = some ⟨.ok, m, [.accept_certificate path local_site], 2⟩
    ∧ create name path tool true none none none none none none none visible
        local_site
        [⟨.err (.unverifiedCertificateError certificate), .ok m⟩, ⟨.ok, t⟩]
      = ⟨.created
          { name := name, path := path, mirror_path := "", raw_file_url := ""
            username := "", password := "", tool := tool, bug_tracker := ""
            encoding := "", public := true, visible := visible
            local_site := local_site, extra_data_cert := some m },
          [.accept_certificate path local_site], 2⟩ := by
  cases m with
  | nil => exact absurd rfl hm
  | cons a l => exact ⟨rfl, rfl⟩

/-- C8, witness: with metadata [("fingerprint", "fp")] returned by
`accept_certificate` and a then-successful probe, `create` saves the
repository with that metadata in `extra_data['cert']`. -/
theorem c8_witness :
    create "Main Repo" "https://svn.example.com/repo" "Subversion" true
        none none none none none none none true none
        [⟨.err (.unverifiedCertificateError
            ⟨["self-signed"], "fp", "svn.example.com", "issuer", "vf", "vu"⟩),
          .ok [("fingerprint", "fp")]⟩,
         ⟨.ok, .ok []⟩]
      = ⟨.created
          { name := "Main Repo", path := "https://svn.example.com/repo"
            mirror_path := "", raw_file_url := "", username := ""
            password := "", tool := "Subversion", bug_tracker := ""
            encoding := "", public := true, visible := true
            local_site := none
            extra_data_cert := some [("fingerprint", "fp")] },
          [.accept_certificate "https://svn.example.com/repo" none], 2⟩ :=
  (c8_certificate_metadata_persisted
      ⟨["self-signed"], "fp", "svn.example.com", "issuer", "vf", "vu"⟩
      [("fingerprint", "fp")] (by simp) "Main Repo"
      "https://svn.example.com/repo" "Subversion" true none (.ok [])).2

/-- C9.  First conjunct: an update supplying none of `path`, `username`,
`password` performs no probe (zero probe calls) and no Trust Store
mutation, yet still writes the supplied fields and saves with status 200.
Second conjunct: an update supplying at least one of the three access
fields — even with a value equal to the stored one, since only presence is
tested — runs the connectivity check: with a first-probe success it
performs exactly one probe and then saves with status 200. -/
theorem c9_update_check_iff_access_fields (repository : Repo)
    (trust_host : Bool) (kw : UpdateKwargs) (now : Nat) :
    (kw.path = none → kw.username = none → kw.password = none →
      ∀ rounds : List Round,
        update repository trust_host kw rounds now
          = ⟨.saved 200
              (maybeArchive (setFields repository kw) kw.archive_name now),
              [], 0⟩)
    ∧ ((kw.path.isSome || kw.username.isSome || kw.password.isSome) = true →
      ∀ (t : TrustActionResult) (rest : List Round),
        update repository trust_host kw (⟨.ok, t⟩ :: rest) now
          = ⟨.saved 200
              (maybeArchive (setFields repository kw) kw.archive_name now),
              [], 1⟩) := by
  constructor
  · intro hp hu hpw rounds
    simp [update, hp, hu, hpw]
  · intro h t rest
    simp [update, h, _check_repository, check_repository_loop]

/-- C9, witness: supplying only `path`, with exactly the stored value,
still runs the check (one probe); supplying only `name` and `visible`
performs no probe and no mutation but the fields are written and saved. -/
theorem c9_witness :
    update sampleRepo true kwPathOnly [⟨.ok, .ok []⟩] 0
      = ⟨.saved 200
          (maybeArchive (setFields sampleRepo kwPathOnly)
            kwPathOnly.archive_name 0), [], 1⟩
    ∧ update sampleRepo true kwNoAccess [] 0
      = ⟨.saved 200
          (maybeArchive (setFields sampleRepo kwNoAccess)
            kwNoAccess.archive_name 0), [], 0⟩ :=
  ⟨(c9_update_check_iff_access_fields sampleRepo true kwPathOnly 0).2
      rfl (.ok []) [],
   (c9_update_check_iff_access_fields sampleRepo true kwNoAccess 0).1
      rfl rfl rfl []⟩

end ReviewBoard
